import Mathlib

/-!
# lastprep: the mock-interview dialogue components

A shallow embedding of the two interview components of the frontend,
`MockInterviewModal` (components/Loader.jsx) and `MockInterview`
(components/MockInterview.jsx).  React state is passed explicitly: every
handler reads the values of the render it was created in and returns the
state that results once its queued updates are applied, together with the
calls it made on the outside world (recogniser, interview service).

JavaScript text is `String`; a field that is `null`, `undefined` or missing is
`none`.  The `section` prop never changes during a session and is left out of
the recorded requests.
-/

namespace LastPrep

/-! ## Values -/

/-- Exceptions raised by the embedded code. -/
inductive JsError where
  | typeError (msg : String)
  | referenceError (msg : String)
  | error (msg : String)
deriving DecidableEq, Repr

/-- One entry of the `history` array: `{ question, answer, feedback }`. -/
structure Turn where
  question : String
  answer : Option String
  feedback : Option String
deriving DecidableEq, Repr

abbrev History := List Turn

/-- The parsed body of a successful reply of the interview service. -/
structure Reply where
  next_question : Option String
  feedback : Option String
deriving DecidableEq, Repr

/-- JavaScript truthiness of an optional text used as a condition: the value
itself when it is a non-empty string, nothing when it is absent or `""`. -/
def asTruthy : Option String → Option String
  | some s => if s = "" then none else some s
  | none => none

/-- The turn literal `{ question: q, answer: null, feedback: null }`. -/
def newTurn (q : String) : Turn :=
  { question := q, answer := none, feedback := none }

/-- The `message` property of a thrown error. -/
def JsError.message : JsError → String
  | .typeError msg => msg
  | .referenceError msg => msg
  | .error msg => msg

/-- The message of the `TypeError` raised by an assignment to the property
`field` of `undefined` (V8 wording). -/
def undefinedSetMessage (field : String) : String :=
  "Cannot set properties of undefined (setting \x27" ++ field ++ "\x27)"

/-- The statement `arr[arr.length - 1].field = v` on a copy of `arr`, where `f`
performs the assignment to the property `field`.  On an empty array the index is
`-1`, the element is `undefined`, and the assignment throws a `TypeError`. -/
def assignLast (field : String) (arr : History) (f : Turn → Turn) : Except JsError History :=
  match arr[arr.length - 1]? with
  | none => .error (.typeError (undefinedSetMessage field))
  | some t => .ok (arr.set (arr.length - 1) (f t))

/-! ## String.prototype.trim -/

/-- Code points removed by `trim`: ECMAScript WhiteSpace and LineTerminator. -/
def isJsWhiteSpace (c : Char) : Bool :=
  let n := c.toNat
  n = 0x09 || n = 0x0A || n = 0x0B || n = 0x0C || n = 0x0D || n = 0x20 || n = 0xA0
    || n = 0x1680 || (0x2000 ≤ n && n ≤ 0x200A) || n = 0x2028 || n = 0x2029
    || n = 0x202F || n = 0x205F || n = 0x3000 || n = 0xFEFF

/-- Embedding of `s.trim()`. -/
def jsTrim (s : String) : String :=
  String.mk ((s.data.dropWhile isJsWhiteSpace).reverse.dropWhile isJsWhiteSpace).reverse

/-! ## MockInterviewModal (components/Loader.jsx) -/

/-- The `useState` cells of `MockInterviewModal`, plus whether
`recognitionRef.current` holds a recogniser (it does exactly when the
mount effect found `webkitSpeechRecognition` in `window`). -/
structure ModalState where
  history : History
  isListening : Bool
  isThinking : Bool
  transcript : String
  recognition : Bool
deriving DecidableEq, Repr

/-- Calls a handler makes on the outside world, in program order. -/
inductive Effect where
  | recognitionStart
  | recognitionStop
  | request (history : History)
  | consoleError (msg : String)
deriving DecidableEq, Repr

/-- State of a freshly mounted modal, before its effects run. -/
def ModalState.init (hasRecognition : Bool) : ModalState :=
  { history := [], isListening := false, isThinking := false, transcript := "",
    recognition := hasRecognition }

/-- One `SpeechRecognitionResult`: its `isFinal` flag and the `transcript` of its
alternative `[0]`. -/
structure SpeechResult where
  isFinal : Bool
  transcript : String
deriving DecidableEq, Repr

/-- The event handed to `recognition.onresult`. -/
structure SpeechEvent where
  resultIndex : Nat
  results : List SpeechResult
deriving DecidableEq, Repr

/-- The `for` loop of `onresult` (Loader.jsx 33-37), from index `i` with the
text accumulated so far. -/
def onresultLoop (results : List SpeechResult) (i : Nat) (finalTranscript : String) : String :=
  if h : i < results.length then
    onresultLoop results (i + 1)
      (if results[i].isFinal then finalTranscript ++ results[i].transcript else finalTranscript)
  else finalTranscript
termination_by results.length - i

/-- Embedding of `recognition.onresult` (Loader.jsx 31-39). -/
def onresult (s : ModalState) (event : SpeechEvent) : ModalState :=
  let finalTranscript := onresultLoop event.results event.resultIndex ""
  { s with transcript := s.transcript ++ finalTranscript }

/-- Embedding of `toggleListen` (Loader.jsx 44-52). -/
def toggleListen (s : ModalState) : ModalState × List Effect :=
  if s.isListening then
    ({ s with isListening := !s.isListening },
      if s.recognition then [Effect.recognitionStop] else [])
  else
    ({ s with transcript := "", isListening := !s.isListening },
      if s.recognition then [Effect.recognitionStart] else [])

/-- The updater passed to `setHistory` in `getNextStep` (Loader.jsx 59-66), for a
reply whose `next_question` is the truthy text `q`. -/
def historyUpdater (data : Reply) (q : String) (prev : History) : Except JsError History :=
  match asTruthy data.feedback with
  | none => .ok (prev ++ [newTurn q])
  | some f =>
    match assignLast "feedback" prev (fun t => { t with feedback := some f }) with
    | .error e => .error e
    | .ok updatedHistory => .ok (updatedHistory ++ [newTurn q])

/-- First half of `getNextStep` (Loader.jsx 55-57), up to the `await`:
`setIsThinking(true)` and the call of `mockInterviewApi(section, currentHistory)`. -/
def getNextStepStart (s : ModalState) (currentHistory : History) : ModalState × List Effect :=
  ({ s with isThinking := true }, [Effect.request currentHistory])

/-- Second half of `getNextStep` (Loader.jsx 57-68), once the awaited call has
settled: `result` is the thrown message or the parsed reply.  An exception thrown
by the state updater is not seen by the `try`: the function itself ends normally,
its `finally` included, and React runs the queued updater while rendering; the
render then fails, the component tree is unmounted and no state is committed,
which is the `error` result here. -/
def getNextStepSettle (s : ModalState) (result : Except String Reply) :
    Except JsError (ModalState × List Effect) :=
  match result with
  | .error msg => .ok ({ s with isThinking := false }, [Effect.consoleError msg])
  | .ok data =>
    match asTruthy data.next_question with
    | none => .ok ({ s with isThinking := false }, [])
    | some q =>
      match historyUpdater data q s.history with
      | .error e => .error e
      | .ok h => .ok ({ s with history := h, isThinking := false }, [])

/-- What a click handler leaves behind: the state after its queued updates, the
calls it made, and the exception that ended it, if any. -/
structure Outcome where
  state : ModalState
  effects : List Effect
  thrown : Option JsError
deriving DecidableEq, Repr

/-- Embedding of `submitAnswer` (Loader.jsx 74-82). -/
def submitAnswer (s : ModalState) : Outcome :=
  let stopped := if s.isListening then toggleListen s else (s, [])
  if jsTrim s.transcript = "" then
    { state := stopped.1, effects := stopped.2, thrown := none }
  else
    match assignLast "answer" s.history (fun t => { t with answer := some s.transcript }) with
    | .error e => { state := stopped.1, effects := stopped.2, thrown := some e }
    | .ok updatedHistory =>
      let started := getNextStepStart { stopped.1 with history := updatedHistory } updatedHistory
      { state := { started.1 with transcript := "" },
        effects := stopped.2 ++ started.2, thrown := none }

/-- The guard of the answer footer (Loader.jsx 101):
`lastTurn && !lastTurn.answer && !isThinking`. -/
def footerShown (s : ModalState) : Bool :=
  match s.history[s.history.length - 1]? with
  | none => false
  | some lastTurn => (asTruthy lastTurn.answer).isNone && !s.isThinking

/-! ## A session of the modal -/

/-- A mounted modal together with the number of `mockInterviewApi` calls that
have been issued and have not settled yet. -/
structure Session where
  ui : ModalState
  inFlight : Nat
deriving DecidableEq, Repr

/-- Number of service calls among the effects of a handler. -/
def requestCount : List Effect → Nat
  | [] => 0
  | Effect.request _ :: es => requestCount es + 1
  | _ :: es => requestCount es

/-- States a session can be in.  It starts with the mount effect
`getNextStep([])` (Loader.jsx 71); afterwards the user can type, toggle capture
and submit while the answer footer is rendered (Loader.jsx 101-109), the
recogniser can deliver results, and each issued call settles once, with a reply
or a failure.  A step whose code throws commits nothing and yields no state. -/
inductive Reachable : Session → Prop where
  | mount (hasRecognition : Bool) :
      Reachable
        { ui := (getNextStepStart (ModalState.init hasRecognition) []).1, inFlight := 1 }
  | typing (s : Session) (text : String) :
      Reachable s → footerShown s.ui = true →
      Reachable { s with ui := { s.ui with transcript := text } }
  | toggle (s : Session) :
      Reachable s → footerShown s.ui = true →
      Reachable { s with ui := (toggleListen s.ui).1 }
  | speech (s : Session) (event : SpeechEvent) :
      Reachable s → s.ui.recognition = true →
      Reachable { s with ui := onresult s.ui event }
  | submit (s : Session) :
      Reachable s → footerShown s.ui = true → (submitAnswer s.ui).thrown = none →
      Reachable
        { ui := (submitAnswer s.ui).state,
          inFlight := s.inFlight + requestCount (submitAnswer s.ui).effects }
  | settle (s : Session) (n : Nat) (result : Except String Reply)
      (ui : ModalState) (effects : List Effect) :
      Reachable s → s.inFlight = n + 1 → getNextStepSettle s.ui result = .ok (ui, effects) →
      Reachable { ui := ui, inFlight := n }

/-- A text field that is present and non-empty. -/
def nonEmptyText : Option String → Bool
  | some s => s != ""
  | none => false

/-- A text field that is absent, or present and non-empty. -/
def absentOrNonEmpty : Option String → Bool
  | some s => s != ""
  | none => true

/-- The history invariant as the specification words it: every turn has a
non-empty question and every turn but the last has a non-empty answer and a
non-empty feedback. -/
def specInvariant (h : History) : Bool :=
  h.all (fun t => t.question != "") &&
    h.dropLast.all (fun t => nonEmptyText t.answer && nonEmptyText t.feedback)

/-- The history invariant the modal maintains: every turn has a non-empty
question, every turn but the last has a non-empty answer, and a feedback that
is present is non-empty. -/
def codeInvariant (h : History) : Bool :=
  h.all (fun t => t.question != "" && absentOrNonEmpty t.feedback) &&
    h.dropLast.all (fun t => nonEmptyText t.answer)

/-! ## MockInterview (components/MockInterview.jsx) -/

/-- The `useState` cells of `MockInterview`. -/
structure MockState where
  history : History
  answer : String
  loading : Bool
  error : String
deriving DecidableEq, Repr

/-- How the `fetch` of `fetchNextQuestion` ends: a rejected promise (transport
failure or unparsable body), a non-ok response with its body text, or an ok
response with its parsed body. -/
inductive FetchResult where
  | rejected (msg : String)
  | notOk (text : String)
  | ok (data : Reply)
deriving DecidableEq, Repr

/-- What a call of a `MockInterview` function leaves behind: the state, the
histories posted to `/mock-interview`, and the exception it ended with
(for the async function: the rejection of its promise). -/
structure MockOutcome where
  state : MockState
  requests : List History
  thrown : Option JsError
deriving DecidableEq, Repr

/-- The state setter `setLoading` returned by `useState(false)`. -/
def setLoading (b : Bool) (s : MockState) : MockState :=
  { s with loading := b }

/-- The `try` block of `fetchNextQuestion` (MockInterview.jsx 30-53): the state
it reaches, or the message of the exception handed to `catch`. -/
def fetchTry (s : MockState) (currentHistory : History) (res : FetchResult) :
    Except String MockState :=
  match res with
  | .rejected msg => .error msg
  | .notOk text => .error (if text = "" then "Failed to get mock interview question" else text)
  | .ok data =>
    match asTruthy data.next_question with
    | some q =>
      .ok { s with history := currentHistory ++ [{ question := q, answer := none, feedback := none }],
                   answer := "" }
    | none =>
      match asTruthy data.feedback, asTruthy data.next_question with
      | some f, some q =>
        match assignLast "feedback" currentHistory (fun t => { t with feedback := some f }) with
        | .error e => .error e.message
        | .ok newHistory => .ok { s with history := newHistory ++ [newTurn q], answer := "" }
      | _, _ => .error "Unexpected AI response format."

/-- The body of `fetchNextQuestion` (MockInterview.jsx 27-59) with the value the
identifier `isLoading` is bound to as a parameter (`none`: unbound). -/
def fetchNextQuestionWith (isLoading : Option (Bool → MockState → MockState))
    (s : MockState) (currentHistory : History) (res : FetchResult) : MockOutcome :=
  match isLoading with
  | none => { state := s, requests := [], thrown := some (.referenceError "isLoading is not defined") }
  | some call =>
    let s1 := { call true s with error := "" }
    let s2 := match fetchTry s1 currentHistory res with
      | .ok s => s
      | .error msg => { s1 with error := msg }
    { state := call false s2, requests := [currentHistory], thrown := none }

/-- Embedding of `fetchNextQuestion`.  Inside `MockInterview` the names in scope
are the props `section`, `onBack`, the state pairs `history`/`setHistory`,
`answer`/`setAnswer`, `loading`/`setLoading`, `error`/`setError`, `lastTurn` and
the two functions; `isLoading` is bound nowhere in the module. -/
def fetchNextQuestion (s : MockState) (currentHistory : History) (res : FetchResult) :
    MockOutcome :=
  fetchNextQuestionWith none s currentHistory res

/-- Embedding of `MockInterview.submitAnswer` (MockInterview.jsx 61-66); `res` is
how the request would end.  The assignment on line 64 writes into the turn
object shared with the `history` state. -/
def mockSubmitAnswer (s : MockState) (res : FetchResult) : MockOutcome :=
  if jsTrim s.answer = "" then { state := s, requests := [], thrown := none }
  else
    match assignLast "answer" s.history (fun t => { t with answer := some (jsTrim s.answer) }) with
    | .error e => { state := s, requests := [], thrown := some e }
    | .ok updatedHistory => fetchNextQuestion { s with history := updatedHistory } updatedHistory res

/-! ## mockInterviewApi (services/api.js) -/

/-- A parsed JSON body of the interview endpoint: the error field `detail` and the
two fields of a reply. -/
structure JsonBody where
  detail : Option String
  next_question : Option String
  feedback : Option String
deriving DecidableEq, Repr

/-- How the `fetch` of `mockInterviewApi` ends: a rejected promise, or a response
with its `ok` flag and what `response.json()` gives, the message of its
rejection or the parsed body. -/
inductive ApiFetch where
  | rejected (msg : String)
  | response (ok : Bool) (json : Except String JsonBody)
deriving Repr

/-- Embedding of `mockInterviewApi` (api.js 32-44): the message of the error it
throws, or the value it returns. -/
def mockInterviewApi (fetched : ApiFetch) : Except String Reply :=
  match fetched with
  | .rejected msg => .error msg
  | .response ok json =>
    if !ok then
      match json with
      | .error msg => .error msg
      | .ok errorData =>
        match asTruthy errorData.detail with
        | some detail => .error detail
        | none => .error "Failed to get interview response."
    else
      match json with
      | .error msg => .error msg
      | .ok data => .ok { next_question := data.next_question, feedback := data.feedback }

/-! ## Auxiliary definitions and sample states -/

/-- A modal with one answered turn and its request in flight. -/
def answeredOnce : ModalState :=
  { history := [{ question := "Tell me about Project X",
                  answer := some "I built a caching layer", feedback := none }],
    isListening := false, isThinking := true, transcript := "", recognition := false }

/-- The content of `codeInvariant`, as a proposition. -/
def HistoryOk (h : History) : Prop :=
  (∀ t ∈ h, t.question ≠ "" ∧ absentOrNonEmpty t.feedback = true) ∧
    (∀ t ∈ h.dropLast, nonEmptyText t.answer = true)

/-- What holds of every reachable session: the history is well formed, at most
one call is in flight, none while the modal is not thinking, and while one is in
flight the last turn (if any) is answered. -/
structure SessionInv (s : Session) : Prop where
  hist : HistoryOk s.ui.history
  idle : s.ui.isThinking = false → s.inFlight = 0
  single : s.inFlight ≤ 1
  answered : s.inFlight = 1 → ∀ init last, s.ui.history = init ++ [last] →
    nonEmptyText last.answer = true

/-- The state before `submitAnswer` reaches its blank test: capture stopped
if it was active. -/
def afterStop (s : ModalState) : ModalState × List Effect :=
  if s.isListening then toggleListen s else (s, [])

/-- A session after two questions and one answer, the second reply having
carried no feedback. -/
def twoQuestions : Session :=
  { ui := { history := [{ question := "Tell me about Project X",
                          answer := some "I built a caching layer", feedback := none },
                        { question := "What was the biggest challenge?",
                          answer := none, feedback := none }],
            isListening := false, isThinking := false, transcript := "",
            recognition := false },
    inFlight := 0 }

/-- State of a freshly mounted `MockInterview`. -/
def MockState.init : MockState :=
  { history := [], answer := "", loading := false, error := "" }

/-- A text that is empty or made of white space only. -/
def isBlank (t : String) : Bool :=
  t.data.all isJsWhiteSpace

/-- A modal showing its first question, capture running, with dictated text. -/
def dictating : ModalState :=
  { history := [newTurn "Tell me about Project X"], isListening := true,
    isThinking := false, transcript := "I led the team", recognition := true }

/-- Concatenation of texts, in order. -/
def joinText : List String → String
  | [] => ""
  | t :: ts => t ++ joinText ts

/-- The text the specification assigns to a recognition event: the first
alternatives of the final results at index `k` and above, in index order. -/
def finalText (results : List SpeechResult) (k : Nat) : String :=
  joinText (((results.drop k).filter (fun r => r.isFinal)).map (fun r => r.transcript))

/-- The modal of `answeredOnce` with new text in the answer box while the request
for the recorded answer is still in flight. -/
def secondThoughts : ModalState :=
  { answeredOnce with transcript := "On second thought" }

/-- A modal showing its first question on a platform without speech recognition. -/
def noRecognizer : ModalState :=
  { history := [newTurn "Tell me about Project X"], isListening := false,
    isThinking := false, transcript := "", recognition := false }

/-- A `MockInterview` whose first question has just been answered. -/
def mockAnswered : MockState :=
  { history := [{ question := "Tell me about Project X",
                  answer := some "I built a caching layer", feedback := none }],
    answer := "I built a caching layer", loading := false, error := "" }

/-- The follow-up reply of scenario B. -/
def followUpReply : Reply :=
  { next_question := some "What was the biggest challenge?",
    feedback := some "Good detail on design trade-offs." }

/-! ## Basic facts -/

theorem asTruthy_some {s : String} (h : s ≠ "") : asTruthy (some s) = some s := by
  simp [asTruthy, h]

theorem asTruthy_eq_some {o : Option String} {s : String} (h : asTruthy o = some s) :
    o = some s ∧ s ≠ "" := by
  cases o with
  | none => simp [asTruthy] at h
  | some t =>
    by_cases ht : t = ""
    · simp [asTruthy, ht] at h
    · simp [asTruthy, ht] at h
      subst h
      exact ⟨rfl, ht⟩

theorem assignLast_nil (field : String) (f : Turn → Turn) :
    assignLast field [] f = .error (.typeError (undefinedSetMessage field)) := rfl

theorem assignLast_snoc (field : String) (init : History) (last : Turn) (f : Turn → Turn) :
    assignLast field (init ++ [last]) f = .ok (init ++ [f last]) := by
  simp [assignLast]

/-! ## Replies handled by `getNextStep` -/

/-- C1: when the history is non-empty (its last turn being the one just answered)
and the reply carries a non-empty `next_question` q and a non-empty `feedback` f,
`getNextStep` leaves every earlier turn as it was, sets f as the feedback of the
last turn without touching its question and answer, and appends exactly one turn
with question q, no answer and no feedback; the same holds of the state updater
on its own. -/
theorem getNextStep_feedback_goes_to_answered_turn (s : ModalState) (init : History)
    (last : Turn) (q f : String) (hs : s.history = init ++ [last]) (hq : q ≠ "") (hf : f ≠ "") :
    historyUpdater { next_question := some q, feedback := some f } q (init ++ [last])
        = .ok (init ++ [{ question := last.question, answer := last.answer, feedback := some f },
                        { question := q, answer := none, feedback := none }]) ∧
    getNextStepSettle s (.ok { next_question := some q, feedback := some f })
        = .ok ({ s with
                  history := init ++ [{ question := last.question, answer := last.answer,
                                        feedback := some f },
                                      { question := q, answer := none, feedback := none }],
                  isThinking := false }, []) := by
  have hu : historyUpdater { next_question := some q, feedback := some f } q (init ++ [last])
      = .ok (init ++ [{ question := last.question, answer := last.answer, feedback := some f },
                      { question := q, answer := none, feedback := none }]) := by
    simp [historyUpdater, asTruthy_some hf, assignLast_snoc, newTurn]
  refine ⟨hu, ?_⟩
  simp only [getNextStepSettle, asTruthy_some hq, hs, hu]

theorem getNextStep_feedback_goes_to_answered_turn_witness :
    getNextStepSettle answeredOnce
        (.ok { next_question := some "What was the biggest challenge?",
               feedback := some "Good detail on design trade-offs." })
      = .ok ({ answeredOnce with
                history := [{ question := "Tell me about Project X",
                              answer := some "I built a caching layer",
                              feedback := some "Good detail on design trade-offs." },
                            { question := "What was the biggest challenge?",
                              answer := none, feedback := none }],
                isThinking := false }, []) :=
  (getNextStep_feedback_goes_to_answered_turn answeredOnce []
    { question := "Tell me about Project X", answer := some "I built a caching layer",
      feedback := none }
    "What was the biggest challenge?" "Good detail on design trade-offs."
    rfl (by decide) (by decide)).2

/-- On an empty history a reply with a usable question and a usable feedback makes
the state updater throw, and with it the render that applies it: no state
follows. -/
theorem getNextStepSettle_empty_history_with_feedback (s : ModalState) (q f : String)
    (hs : s.history = []) (hq : q ≠ "") (hf : f ≠ "") :
    getNextStepSettle s (.ok { next_question := some q, feedback := some f })
      = .error (.typeError (undefinedSetMessage "feedback")) := by
  have hu : historyUpdater { next_question := some q, feedback := some f } q s.history
      = .error (.typeError (undefinedSetMessage "feedback")) := by
    simp [historyUpdater, asTruthy_some hf, hs, assignLast_nil]
  simp only [getNextStepSettle, asTruthy_some hq, hu]

/-- C3 (behaviour of the code): for the mounted modal, whose initial request is
in flight and whose history is empty, a reply with the question "Tell me about
Project X" and the feedback "Nice." is not rejected in a way that leaves the
session with its empty history.  The state updater indexes the empty copy at
`length - 1` and throws `TypeError: Cannot set properties of undefined (setting
'feedback')`, the render that runs it fails, and no state at all follows the
reply, neither one with the turn appended nor one with the history still
empty; the same reply without the feedback is accepted. -/
theorem getNextStep_initial_reply_with_feedback_crashes :
    (getNextStepStart (ModalState.init true) []).1.history = [] ∧
    historyUpdater { next_question := some "Tell me about Project X", feedback := some "Nice." }
        "Tell me about Project X" []
      = .error (.typeError "Cannot set properties of undefined (setting \x27feedback\x27)") ∧
    getNextStepSettle (getNextStepStart (ModalState.init true) []).1
        (.ok { next_question := some "Tell me about Project X", feedback := some "Nice." })
      = .error (.typeError "Cannot set properties of undefined (setting \x27feedback\x27)") ∧
    (¬ ∃ ui effects,
        getNextStepSettle (getNextStepStart (ModalState.init true) []).1
            (.ok { next_question := some "Tell me about Project X", feedback := some "Nice." })
          = .ok (ui, effects) ∧ ui.history = []) ∧
    getNextStepSettle (getNextStepStart (ModalState.init true) []).1
        (.ok { next_question := some "Tell me about Project X", feedback := none })
      = .ok ({ history := [newTurn "Tell me about Project X"], isListening := false,
               isThinking := false, transcript := "", recognition := true }, []) := by
  have h := getNextStepSettle_empty_history_with_feedback
    (getNextStepStart (ModalState.init true) []).1 "Tell me about Project X" "Nice."
    rfl (by decide) (by decide)
  refine ⟨rfl, ?_, ?_, ?_, rfl⟩
  · simp [historyUpdater, asTruthy, assignLast_nil, undefinedSetMessage]
  · rw [h]
    simp [undefinedSetMessage]
  · rintro ⟨ui, effects, he, _⟩
    rw [h] at he
    cases he

/-- C4, as stated, fails: with one answered turn in the history, a reply that
carries a question and no feedback is accepted, and the history grows by a turn
instead of staying as it was. -/
theorem getNextStep_reply_without_feedback_counterexample :
    getNextStepSettle answeredOnce
        (.ok { next_question := some "What was the biggest challenge?", feedback := none })
      = .ok ({ answeredOnce with
                history := answeredOnce.history ++ [newTurn "What was the biggest challenge?"],
                isThinking := false }, []) ∧
    answeredOnce.history ++ [newTurn "What was the biggest challenge?"] ≠ answeredOnce.history := by
  constructor
  · rfl
  · decide

/-- C4, amended: for every history and every reply that carries a non-empty
`next_question` q and a feedback that is absent or empty, `getNextStep` accepts
the reply: the previous history is kept as it was (the answered turn keeps its
feedback unset) and one turn with question q, no answer and no feedback is
appended. -/
theorem getNextStep_reply_without_feedback_appends (s : ModalState) (q : String)
    (fb : Option String) (hq : q ≠ "") (hfb : fb = none ∨ fb = some "") :
    getNextStepSettle s (.ok { next_question := some q, feedback := fb })
      = .ok ({ s with history := s.history ++ [{ question := q, answer := none, feedback := none }],
                      isThinking := false }, []) := by
  have ht : asTruthy fb = none := by
    rcases hfb with h | h <;> simp [h, asTruthy]
  simp [getNextStepSettle, asTruthy_some hq, historyUpdater, ht, newTurn]

theorem getNextStep_reply_without_feedback_appends_witness :
    getNextStepSettle answeredOnce
        (.ok { next_question := some "What was the biggest challenge?", feedback := some "" })
      = .ok ({ answeredOnce with
                history := answeredOnce.history ++
                  [{ question := "What was the biggest challenge?", answer := none,
                     feedback := none }],
                isThinking := false }, []) :=
  getNextStep_reply_without_feedback_appends answeredOnce "What was the biggest challenge?"
    (some "") (by decide) (Or.inr rfl)

/-! ## The history invariant of a session -/

theorem codeInvariant_iff (h : History) : codeInvariant h = true ↔ HistoryOk h := by
  simp only [codeInvariant, HistoryOk, Bool.and_eq_true, List.all_eq_true, bne_iff_ne, ne_eq]

theorem historyOk_snoc (init : History) (last : Turn) :
    HistoryOk (init ++ [last]) ↔
      (∀ t ∈ init, (t.question ≠ "" ∧ absentOrNonEmpty t.feedback = true) ∧
        nonEmptyText t.answer = true) ∧
      (last.question ≠ "" ∧ absentOrNonEmpty last.feedback = true) := by
  simp only [HistoryOk, List.dropLast_concat, List.mem_append, List.mem_singleton]
  constructor
  · rintro ⟨h1, h2⟩
    exact ⟨fun t ht => ⟨h1 t (Or.inl ht), h2 t ht⟩, h1 last (Or.inr rfl)⟩
  · rintro ⟨h1, h2⟩
    refine ⟨fun t ht => ?_, fun t ht => (h1 t ht).2⟩
    rcases ht with ht | ht
    · exact (h1 t ht).1
    · subst ht; exact h2

theorem footerShown_elim {s : ModalState} (h : footerShown s = true) :
    ∃ init last, s.history = init ++ [last] ∧ asTruthy last.answer = none ∧
      s.isThinking = false := by
  rcases List.eq_nil_or_concat s.history with hnil | ⟨init, last, hc⟩
  · simp [footerShown, hnil] at h
  · rw [List.concat_eq_append] at hc
    refine ⟨init, last, hc, ?_⟩
    simpa [footerShown, hc, Option.isNone_iff_eq_none] using h

theorem requestCount_toggleListen (s : ModalState) : requestCount (toggleListen s).2 = 0 := by
  unfold toggleListen
  cases s.isListening <;> cases s.recognition <;> rfl

theorem toggleListen_history (s : ModalState) : (toggleListen s).1.history = s.history := by
  unfold toggleListen
  cases s.isListening <;> rfl

theorem toggleListen_isThinking (s : ModalState) :
    (toggleListen s).1.isThinking = s.isThinking := by
  unfold toggleListen
  cases s.isListening <;> rfl

theorem requestCount_append (xs ys : List Effect) :
    requestCount (xs ++ ys) = requestCount xs + requestCount ys := by
  induction xs with
  | nil => simp [requestCount]
  | cons x xs ih =>
    cases x <;> simp [requestCount, ih]
    omega

theorem jsTrim_empty : jsTrim "" = "" := rfl

theorem afterStop_history (s : ModalState) : (afterStop s).1.history = s.history := by
  unfold afterStop
  split
  · exact toggleListen_history s
  · rfl

theorem afterStop_isThinking (s : ModalState) :
    (afterStop s).1.isThinking = s.isThinking := by
  unfold afterStop
  split
  · exact toggleListen_isThinking s
  · rfl

theorem requestCount_afterStop (s : ModalState) : requestCount (afterStop s).2 = 0 := by
  unfold afterStop
  split
  · exact requestCount_toggleListen s
  · rfl

theorem submitAnswer_blank (s : ModalState) (h : jsTrim s.transcript = "") :
    submitAnswer s = { state := (afterStop s).1, effects := (afterStop s).2, thrown := none } := by
  simp [submitAnswer, afterStop, h]

theorem submitAnswer_answer (s : ModalState) (init : History) (last : Turn)
    (hs : s.history = init ++ [last]) (h : jsTrim s.transcript ≠ "") :
    submitAnswer s =
      { state := { (afterStop s).1 with
                    history := init ++ [{ last with answer := some s.transcript }],
                    isThinking := true, transcript := "" },
        effects := (afterStop s).2 ++
          [Effect.request (init ++ [{ last with answer := some s.transcript }])],
        thrown := none } := by
  simp [submitAnswer, afterStop, h, hs, assignLast_snoc, getNextStepStart]

theorem nonEmptyText_of_trim {t : String} (h : jsTrim t ≠ "") : nonEmptyText (some t) = true := by
  have : t ≠ "" := by
    rintro rfl
    exact h jsTrim_empty
  simpa [nonEmptyText] using this

theorem sessionInv_mount (hasRecognition : Bool) :
    SessionInv
      { ui := (getNextStepStart (ModalState.init hasRecognition) []).1, inFlight := 1 } := by
  refine ⟨?_, ?_, ?_, ?_⟩
  · simp [HistoryOk, getNextStepStart, ModalState.init]
  · simp [getNextStepStart]
  · simp
  · intro _ init last h
    simp [getNextStepStart, ModalState.init] at h

theorem sessionInv_submit (s : Session) (inv : SessionInv s) (hf : footerShown s.ui = true) :
    SessionInv
      { ui := (submitAnswer s.ui).state,
        inFlight := s.inFlight + requestCount (submitAnswer s.ui).effects } := by
  obtain ⟨init, last, hs, _, hth⟩ := footerShown_elim hf
  have h0 : s.inFlight = 0 := inv.idle hth
  by_cases hb : jsTrim s.ui.transcript = ""
  · rw [submitAnswer_blank _ hb]
    simp only [requestCount_afterStop, Nat.add_zero]
    refine ⟨?_, ?_, ?_, ?_⟩
    · simpa [afterStop_history] using inv.hist
    · intro _; exact h0
    · exact inv.single
    · intro h1; simp [h0] at h1
  · rw [submitAnswer_answer _ init last hs hb]
    simp only [requestCount_append, requestCount_afterStop, requestCount, h0]
    have hok := (historyOk_snoc init last).1 (hs ▸ inv.hist)
    refine ⟨?_, ?_, ?_, ?_⟩
    · exact (historyOk_snoc init _).2 ⟨hok.1, hok.2⟩
    · intro h; simp at h
    · simp
    · intro _ init2 last2 h
      have e := List.append_inj_right' h rfl
      simp only [List.cons.injEq, and_true] at e
      subst e
      exact nonEmptyText_of_trim hb

theorem historyOk_append_question (prev : History) (q : String) (hq : q ≠ "")
    (hok : HistoryOk prev)
    (hans : ∀ init last, prev = init ++ [last] → nonEmptyText last.answer = true) :
    HistoryOk (prev ++ [newTurn q]) := by
  refine (historyOk_snoc prev (newTurn q)).2 ⟨?_, ⟨hq, rfl⟩⟩
  rcases List.eq_nil_or_concat prev with hnil | ⟨init, last, hc⟩
  · subst hnil
    intro t ht
    cases ht
  · rw [List.concat_eq_append] at hc
    subst hc
    have h := (historyOk_snoc init last).1 hok
    intro t ht
    rcases List.mem_append.1 ht with ht | ht
    · exact h.1 t ht
    · rw [List.mem_singleton] at ht
      subst ht
      exact ⟨h.2, hans init t rfl⟩

theorem historyUpdater_ok (data : Reply) (q : String) (prev h : History) (hq : q ≠ "")
    (hok : HistoryOk prev)
    (hans : ∀ init last, prev = init ++ [last] → nonEmptyText last.answer = true)
    (hu : historyUpdater data q prev = .ok h) :
    HistoryOk h ∧ ∀ init last, h = init ++ [last] → last = newTurn q := by
  have hlast : ∀ (l : History) init last, l ++ [newTurn q] = init ++ [last] → last = newTurn q := by
    intro l init last e
    have e2 := List.append_inj_right' e rfl
    simp only [List.cons.injEq, and_true] at e2
    exact e2.symm
  unfold historyUpdater at hu
  cases hfb : asTruthy data.feedback with
  | none =>
    simp only [hfb] at hu
    cases hu
    exact ⟨historyOk_append_question prev q hq hok hans, hlast prev⟩
  | some f =>
    have hf := (asTruthy_eq_some hfb).2
    simp only [hfb] at hu
    rcases List.eq_nil_or_concat prev with hnil | ⟨init, last, hc⟩
    · subst hnil
      simp [assignLast_nil] at hu
    · rw [List.concat_eq_append] at hc
      subst hc
      simp only [assignLast_snoc] at hu
      cases hu
      refine ⟨historyOk_append_question _ q hq ?_ ?_, hlast _⟩
      · have h := (historyOk_snoc init last).1 hok
        refine (historyOk_snoc init _).2 ⟨h.1, h.2.1, ?_⟩
        simpa [absentOrNonEmpty] using hf
      · intro init2 last2 e
        have e2 := List.append_inj_right' e rfl
        simp only [List.cons.injEq, and_true] at e2
        subst e2
        exact hans init last rfl

theorem sessionInv_settle (s : Session) (inv : SessionInv s) (n : Nat)
    (result : Except String Reply) (ui : ModalState) (effects : List Effect)
    (hn : s.inFlight = n + 1) (h : getNextStepSettle s.ui result = .ok (ui, effects)) :
    SessionInv { ui := ui, inFlight := n } := by
  have hn0 : n = 0 := by have := inv.single; omega
  subst hn0
  have hans := inv.answered hn
  cases result with
  | error msg =>
    simp only [getNextStepSettle, Except.ok.injEq, Prod.mk.injEq] at h
    obtain ⟨rfl, _⟩ := h
    exact ⟨inv.hist, fun _ => rfl, Nat.zero_le _, fun h1 => by cases h1⟩
  | ok data =>
    unfold getNextStepSettle at h
    cases hq : asTruthy data.next_question with
    | none =>
      simp only [hq, Except.ok.injEq, Prod.mk.injEq] at h
      obtain ⟨rfl, _⟩ := h
      exact ⟨inv.hist, fun _ => rfl, Nat.zero_le _, fun h1 => by cases h1⟩
    | some q =>
      simp only [hq] at h
      cases hu : historyUpdater data q s.ui.history with
      | error e => simp [hu] at h
      | ok hist =>
        simp only [hu, Except.ok.injEq, Prod.mk.injEq] at h
        obtain ⟨rfl, _⟩ := h
        have := historyUpdater_ok data q _ hist (asTruthy_eq_some hq).2 inv.hist hans hu
        exact ⟨this.1, fun _ => rfl, Nat.zero_le _, fun h1 => by cases h1⟩

theorem sessionInv_of_reachable (s : Session) (h : Reachable s) : SessionInv s := by
  induction h with
  | mount hasRecognition => exact sessionInv_mount hasRecognition
  | typing s text _ _ ih => exact ⟨ih.hist, ih.idle, ih.single, ih.answered⟩
  | toggle s _ _ ih =>
    refine ⟨?_, ?_, ih.single, ?_⟩
    · simpa [toggleListen_history] using ih.hist
    · simpa [toggleListen_isThinking] using ih.idle
    · simpa [toggleListen_history] using ih.answered
  | speech s event _ _ ih => exact ⟨ih.hist, ih.idle, ih.single, ih.answered⟩
  | submit s _ hf _ ih => exact sessionInv_submit s ih hf
  | settle s n result ui effects _ hn hs ih => exact sessionInv_settle s ih n result ui effects hn hs

theorem twoQuestions_reachable : Reachable twoQuestions := by
  have h0 := Reachable.mount false
  have h1 := Reachable.settle _ 0
    (.ok { next_question := some "Tell me about Project X", feedback := none })
    { history := [newTurn "Tell me about Project X"], isListening := false,
      isThinking := false, transcript := "", recognition := false } [] h0 rfl rfl
  have h2 := Reachable.typing _ "I built a caching layer" h1 rfl
  have h3 := Reachable.submit _ h2 (by decide) (by decide)
  exact Reachable.settle _ 0
    (.ok { next_question := some "What was the biggest challenge?", feedback := none })
    twoQuestions.ui [] h3 rfl rfl

/-- C2, as stated, fails: the session `twoQuestions` is reached by the initial
request, its reply, one submitted answer and a reply without feedback, and its
first turn, which is not the last, has no feedback. -/
theorem reachable_history_without_feedback_counterexample :
    Reachable twoQuestions ∧ specInvariant twoQuestions.ui.history = false :=
  ⟨twoQuestions_reachable, by decide⟩

/-- C2, amended: in every state of the modal reachable from the initial empty
session by the initial request, typing, capture toggles, recognition results,
submissions made while the answer footer is shown, and service replies or
failures, every turn has a non-empty question, every turn but the last has a
non-empty answer (so at most the last turn is unanswered), and a feedback that
is present is non-empty. -/
theorem reachable_history_invariant (s : Session) (h : Reachable s) :
    codeInvariant s.ui.history = true :=
  (codeInvariant_iff _).2 (sessionInv_of_reachable s h).hist

theorem reachable_history_invariant_witness :
    Reachable twoQuestions ∧ codeInvariant twoQuestions.ui.history = true :=
  ⟨twoQuestions_reachable, reachable_history_invariant twoQuestions twoQuestions_reachable⟩

/-! ## MockInterview.fetchNextQuestion -/

/-- Had line 28 and line 57 called `setLoading`, a reply without a usable question
would end with the format error shown, the history untouched and loading
cleared. -/
theorem fetchNextQuestionWith_setLoading_unusable_reply (s : MockState)
    (currentHistory : History) (data : Reply) (h : asTruthy data.next_question = none) :
    fetchNextQuestionWith (some setLoading) s currentHistory (.ok data)
      = { state := { s with loading := false, error := "Unexpected AI response format." },
          requests := [currentHistory], thrown := none } := by
  cases hf : asTruthy data.feedback <;>
    simp [fetchNextQuestionWith, fetchTry, h, hf, setLoading]

/-- C5 (behaviour of the code): `fetchNextQuestion` ends at its first statement,
the call of the unbound identifier `isLoading` on line 28, which lies outside the
`try`: for every state, history and reply it throws a `ReferenceError`, posts no
request and changes no state, so the displayed error is never set; from the
initial state, with a reply lacking `next_question`, the error is still empty
rather than "Unexpected AI response format.". -/
theorem fetchNextQuestion_throws_referenceError :
    (∀ (s : MockState) (currentHistory : History) (res : FetchResult),
      fetchNextQuestion s currentHistory res
        = { state := s, requests := [],
            thrown := some (.referenceError "isLoading is not defined") }) ∧
    (fetchNextQuestion MockState.init [] (.ok { next_question := none, feedback := none })).state.error
      = "" ∧
    (fetchNextQuestion MockState.init [] (.ok { next_question := none, feedback := none })).state.error
      ≠ "Unexpected AI response format." := by
  refine ⟨fun _ _ _ => rfl, rfl, by decide⟩

/-! ## Blank answers -/

theorem jsTrim_of_isBlank {t : String} (h : isBlank t = true) : jsTrim t = "" := by
  have hd : t.data.dropWhile isJsWhiteSpace = [] :=
    List.dropWhile_eq_nil_iff.2 (List.all_eq_true.1 h)
  simp [jsTrim, hd]

theorem afterStop_no_request (s : ModalState) (h : History) :
    Effect.request h ∉ (afterStop s).2 := by
  unfold afterStop toggleListen
  cases s.isListening <;> cases s.recognition <;> simp

/-- C6: when the pending text is empty or white space only, `submitAnswer` of the
modal leaves the history as it was, ends normally and calls the interview
service with no history at all, and `submitAnswer` of `MockInterview` changes
nothing and posts nothing. -/
theorem submitAnswer_blank_is_ignored (s : ModalState) (m : MockState) (res : FetchResult)
    (hs : isBlank s.transcript = true) (hm : isBlank m.answer = true) :
    (submitAnswer s).state.history = s.history ∧
    (∀ h, Effect.request h ∉ (submitAnswer s).effects) ∧
    (submitAnswer s).thrown = none ∧
    mockSubmitAnswer m res = { state := m, requests := [], thrown := none } := by
  rw [submitAnswer_blank s (jsTrim_of_isBlank hs)]
  refine ⟨afterStop_history s, afterStop_no_request s, rfl, ?_⟩
  simp [mockSubmitAnswer, jsTrim_of_isBlank hm]

theorem submitAnswer_blank_is_ignored_witness :
    (submitAnswer { dictating with transcript := " \n\t " }).state.history = dictating.history ∧
    mockSubmitAnswer { MockState.init with history := [newTurn "Q"], answer := "  " }
        (.ok { next_question := some "Next", feedback := none })
      = { state := { MockState.init with history := [newTurn "Q"], answer := "  " },
          requests := [], thrown := none } :=
  have h := submitAnswer_blank_is_ignored { dictating with transcript := " \n\t " }
    { MockState.init with history := [newTurn "Q"], answer := "  " }
    (.ok { next_question := some "Next", feedback := none }) (by decide) (by decide)
  ⟨h.1, h.2.2.2⟩

/-! ## Submitting an answer -/

/-- C7: with a non-empty history (its last turn being the unanswered one), capture
active and a pending text t whose trim is non-empty, `submitAnswer` first stops capture
(the recogniser, when there is one, is stopped before the request is made, and
`isListening` becomes false), records t itself, untrimmed, as the answer of the
last turn and changes no other turn or field, calls the service with that
updated history, raises `isThinking` and resets the pending text to empty. -/
theorem submitAnswer_records_pending_text (s : ModalState) (init : History) (last : Turn)
    (hs : s.history = init ++ [last]) (hl : s.isListening = true)
    (ht : jsTrim s.transcript ≠ "") :
    submitAnswer s =
      { state :=
          { history := init ++ [{ question := last.question, answer := some s.transcript,
                                  feedback := last.feedback }],
            isListening := false, isThinking := true, transcript := "",
            recognition := s.recognition },
        effects :=
          (if s.recognition then [Effect.recognitionStop] else []) ++
            [Effect.request (init ++ [{ question := last.question, answer := some s.transcript,
                                        feedback := last.feedback }])],
        thrown := none } := by
  rw [submitAnswer_answer s init last hs ht]
  simp [afterStop, toggleListen, hl]

theorem submitAnswer_records_pending_text_witness :
    submitAnswer dictating =
      { state :=
          { history := [{ question := "Tell me about Project X", answer := some "I led the team",
                          feedback := none }],
            isListening := false, isThinking := true, transcript := "", recognition := true },
        effects :=
          [Effect.recognitionStop,
           Effect.request [{ question := "Tell me about Project X",
                             answer := some "I led the team", feedback := none }]],
        thrown := none } :=
  submitAnswer_records_pending_text dictating [] (newTurn "Tell me about Project X")
    rfl rfl (by decide)

/-! ## Capture -/

/-- C8, as stated, fails: from an idle modal holding typed text, two calls of
`toggleListen` bring `isListening` back to false but leave the pending text
empty, not as it was. -/
theorem toggleListen_twice_counterexample :
    (toggleListen (toggleListen { dictating with isListening := false }).1).1.isListening = false ∧
    (toggleListen (toggleListen { dictating with isListening := false }).1).1.transcript = "" ∧
    (toggleListen (toggleListen { dictating with isListening := false }).1).1.transcript
      ≠ ({ dictating with isListening := false } : ModalState).transcript := by
  refine ⟨rfl, rfl, by decide⟩

/-- C8, amended: for every state of the modal, two calls of `toggleListen` in a
row, with no recognition result in between, return `isListening` to its original
value and leave history and `isThinking` alone, and the pending text ends up
empty, whether capture was idle or active at the first call: the call that starts
capture clears it. -/
theorem toggleListen_twice (s : ModalState) :
    (toggleListen (toggleListen s).1).1 = { s with transcript := "" } ∧
    (toggleListen s).2 ++ (toggleListen (toggleListen s).1).2 =
      (if s.recognition then
        (if s.isListening then [Effect.recognitionStop, Effect.recognitionStart]
         else [Effect.recognitionStart, Effect.recognitionStop])
       else []) := by
  obtain ⟨h, l, t, tr, r⟩ := s
  cases l <;> cases r <;> simp [toggleListen]

/-! ## Recognition results -/

theorem onresultLoop_eq (results : List SpeechResult) :
    ∀ (n i : Nat) (acc : String), results.length - i = n →
      onresultLoop results i acc = acc ++ finalText results i := by
  intro n
  induction n with
  | zero =>
    intro i acc h
    have hi : ¬ i < results.length := by omega
    rw [onresultLoop, dif_neg hi]
    have hd : results.drop i = [] := List.drop_eq_nil_of_le (by omega)
    simp [finalText, hd, joinText]
  | succ n ih =>
    intro i acc h
    have hi : i < results.length := by omega
    rw [onresultLoop, dif_pos hi, ih (i + 1) _ (by omega)]
    have hd : finalText results i =
        (if results[i].isFinal then results[i].transcript ++ finalText results (i + 1)
         else finalText results (i + 1)) := by
      simp only [finalText]
      rw [List.drop_eq_getElem_cons hi]
      cases hfin : results[i].isFinal <;>
        simp only [List.filter_cons, hfin, List.map_cons, joinText, if_true, if_false,
          Bool.false_eq_true]
    rw [hd]
    cases results[i].isFinal <;> simp [String.append_assoc]

/-- C9: for every prior transcript and every recognition event, `onresult` sets
the transcript to the prior transcript followed by the concatenation, in index
order, of the first-alternative texts of exactly the results at index
`resultIndex` and above that are final, and changes nothing else; when none of
those results is final the transcript stays as it was. -/
theorem onresult_appends_final_text (s : ModalState) (event : SpeechEvent) :
    onresult s event =
      { s with transcript := s.transcript ++ finalText event.results event.resultIndex } ∧
    ((∀ r ∈ event.results.drop event.resultIndex, r.isFinal = false) →
      onresult s event = s) := by
  have h : onresult s event =
      { s with transcript := s.transcript ++ finalText event.results event.resultIndex } := by
    simp [onresult, onresultLoop_eq event.results _ event.resultIndex "" rfl]
  refine ⟨h, fun hint => ?_⟩
  have hf : (event.results.drop event.resultIndex).filter (fun r => r.isFinal) = [] :=
    List.filter_eq_nil_iff.2 (fun r hr => by simp [hint r hr])
  rw [h]
  simp [finalText, hf, joinText]

theorem onresult_appends_final_text_witness :
    onresult dictating
        { resultIndex := 1,
          results := [{ isFinal := true, transcript := "old" },
                      { isFinal := false, transcript := " and" }] }
      = dictating :=
  (onresult_appends_final_text dictating
    { resultIndex := 1,
      results := [{ isFinal := true, transcript := "old" },
                  { isFinal := false, transcript := " and" }] }).2 (by decide)

/-! ## Failed requests -/

/-- C10: let `submitAnswer` record a non-blank pending text on the last turn of a
non-empty history, which produces the history h and issues the request for h
with `isThinking` raised.  If that request fails, with any message, `getNextStep`
ends normally, the history is h exactly (the recorded answer is kept, no turn is
appended, no feedback is attached), `isThinking` is false again and every other
field is as `submitAnswer` left it. -/
theorem failed_request_keeps_recorded_answer (s : ModalState) (init : History) (last : Turn)
    (msg : String) (hs : s.history = init ++ [last]) (ht : jsTrim s.transcript ≠ "") :
    (submitAnswer s).state.history = init ++ [{ last with answer := some s.transcript }] ∧
    (submitAnswer s).state.isThinking = true ∧
    Effect.request (init ++ [{ last with answer := some s.transcript }])
      ∈ (submitAnswer s).effects ∧
    getNextStepSettle (submitAnswer s).state (.error msg)
      = .ok ({ history := init ++ [{ last with answer := some s.transcript }],
               isListening := false, isThinking := false, transcript := "",
               recognition := s.recognition }, [Effect.consoleError msg]) := by
  rw [submitAnswer_answer s init last hs ht]
  refine ⟨rfl, rfl, by simp, ?_⟩
  simp only [getNextStepSettle, afterStop, toggleListen]
  cases hl : s.isListening <;> simp [hl]

theorem failed_request_keeps_recorded_answer_witness :
    getNextStepSettle (submitAnswer dictating).state (.error "Failed to fetch")
      = .ok ({ history := [{ question := "Tell me about Project X",
                             answer := some "I led the team", feedback := none }],
               isListening := false, isThinking := false, transcript := "",
               recognition := true }, [Effect.consoleError "Failed to fetch"]) :=
  (failed_request_keeps_recorded_answer dictating [] (newTurn "Tell me about Project X")
    "Failed to fetch" rfl (by decide)).2.2.2

/-! ## Errors of the interview service -/

/-- C14: on a non-success response whose parsed body has a non-empty `detail` d,
`mockInterviewApi` throws an error whose message is d itself; when `detail` is
absent or empty the message is "Failed to get interview response."; and on a
non-success response the call returns no value, whatever the body. -/
theorem mockInterviewApi_surfaces_detail (errorData : JsonBody) :
    (∀ d, errorData.detail = some d → d ≠ "" →
      mockInterviewApi (.response false (.ok errorData)) = .error d) ∧
    (errorData.detail = none ∨ errorData.detail = some "" →
      mockInterviewApi (.response false (.ok errorData))
        = .error "Failed to get interview response.") ∧
    (∀ (json : Except String JsonBody) (data : Reply),
      mockInterviewApi (.response false json) ≠ .ok data) := by
  refine ⟨?_, ?_, ?_⟩
  · intro d hd hne
    simp [mockInterviewApi, hd, asTruthy_some hne]
  · intro h
    rcases h with h | h <;> simp [mockInterviewApi, h, asTruthy]
  · intro json data h
    cases json with
    | error msg => simp [mockInterviewApi] at h
    | ok body =>
      cases hd : asTruthy body.detail <;> simp [mockInterviewApi, hd] at h

theorem mockInterviewApi_surfaces_detail_witness :
    mockInterviewApi
        (.response false
          (.ok { detail := some "Section text is too short.", next_question := none,
                 feedback := none }))
      = .error "Section text is too short." ∧
    mockInterviewApi
        (.response false (.ok { detail := some "", next_question := none, feedback := none }))
      = .error "Failed to get interview response." :=
  ⟨(mockInterviewApi_surfaces_detail
      { detail := some "Section text is too short.", next_question := none,
        feedback := none }).1 "Section text is too short." rfl (by decide),
   (mockInterviewApi_surfaces_detail
      { detail := some "", next_question := none, feedback := none }).2.1 (Or.inr rfl)⟩

/-- C11, as stated, fails: after a failed request the state of the modal is the
same whatever the message of the failure was, so nothing computed from the state
can be that message. -/
theorem getNextStep_failure_message_not_in_state_counterexample :
    (∃ ui, getNextStepSettle answeredOnce (.error "Failed to fetch")
              = .ok (ui, [Effect.consoleError "Failed to fetch"]) ∧
           getNextStepSettle answeredOnce (.error "Failed to get interview response.")
              = .ok (ui, [Effect.consoleError "Failed to get interview response."])) ∧
    ¬ ∃ lastError : ModalState → Option String,
        ∀ (s : ModalState) (m : String) (ui : ModalState) (effects : List Effect),
          getNextStepSettle s (.error m) = .ok (ui, effects) → lastError ui = some m := by
  refine ⟨⟨{ answeredOnce with isThinking := false }, rfl, rfl⟩, ?_⟩
  rintro ⟨lastError, h⟩
  have ha := h answeredOnce "a" { answeredOnce with isThinking := false } _ rfl
  have hb := h answeredOnce "b" { answeredOnce with isThinking := false } _ rfl
  rw [ha] at hb
  exact absurd hb (by decide)

/-- C11, amended: whenever the call of `mockInterviewApi` fails with a message m,
`getNextStep` catches the failure and ends normally; m is handed to
`console.error` and to nothing else, and the resulting state is the state before
with `isThinking` false: history, capture flag and pending text are unchanged
and no field holds m. -/
theorem getNextStep_failure_is_logged_only (s : ModalState) (m : String) :
    getNextStepSettle s (.error m)
      = .ok ({ s with isThinking := false }, [Effect.consoleError m]) ∧
    ∀ fetched, mockInterviewApi fetched = .error m →
      getNextStepSettle s (mockInterviewApi fetched)
        = .ok ({ s with isThinking := false }, [Effect.consoleError m]) := by
  refine ⟨rfl, fun fetched h => ?_⟩
  rw [h]
  rfl

theorem getNextStep_failure_is_logged_only_witness :
    getNextStepSettle answeredOnce
        (mockInterviewApi
          (.response false
            (.ok { detail := some "Model overloaded", next_question := none,
                   feedback := none })))
      = .ok ({ answeredOnce with isThinking := false },
             [Effect.consoleError "Model overloaded"]) :=
  (getNextStep_failure_is_logged_only answeredOnce "Model overloaded").2
    (.response false
      (.ok { detail := some "Model overloaded", next_question := none, feedback := none }))
    rfl

/-! ## Submitting while an answer is in flight -/

/-- C12, as stated, fails: with the last turn already answered and its request in
flight, `submitAnswer` with new non-blank text overwrites the recorded answer
and issues a second request. -/
theorem submitAnswer_overwrites_answer_counterexample :
    submitAnswer secondThoughts =
      { state :=
          { history := [{ question := "Tell me about Project X",
                          answer := some "On second thought", feedback := none }],
            isListening := false, isThinking := true, transcript := "",
            recognition := false },
        effects :=
          [Effect.request [{ question := "Tell me about Project X",
                             answer := some "On second thought", feedback := none }]],
        thrown := none } ∧
    (submitAnswer secondThoughts).state.history ≠ secondThoughts.history ∧
    requestCount (submitAnswer secondThoughts).effects = 1 := by
  refine ⟨by rfl, by decide, by rfl⟩

/-- C12, amended: while the last turn already has an answer the answer footer,
with its Submit button, is not rendered, so the interface offers no way to
invoke `submitAnswer`; the function itself has no guard, and when it is invoked
in that state with non-blank pending text it ends normally, replaces the
recorded answer by the pending text and issues a request with the changed
history. -/
theorem submitAnswer_guarded_by_footer_only (s : ModalState) (init : History) (last : Turn)
    (a : String) (hs : s.history = init ++ [last]) (ha : last.answer = some a) (hne : a ≠ "")
    (ht : jsTrim s.transcript ≠ "") :
    footerShown s = false ∧
    (submitAnswer s).thrown = none ∧
    (submitAnswer s).state.history
      = init ++ [{ question := last.question, answer := some s.transcript,
                   feedback := last.feedback }] ∧
    requestCount (submitAnswer s).effects = 1 ∧
    Effect.request (init ++ [{ question := last.question, answer := some s.transcript,
                               feedback := last.feedback }]) ∈ (submitAnswer s).effects := by
  refine ⟨?_, ?_⟩
  · simp [footerShown, hs, ha, asTruthy_some hne]
  · rw [submitAnswer_answer s init last hs ht]
    refine ⟨rfl, rfl, ?_, by simp⟩
    simp [requestCount_append, requestCount_afterStop, requestCount]

theorem submitAnswer_guarded_by_footer_only_witness :
    footerShown secondThoughts = false ∧
    (submitAnswer secondThoughts).state.history
      = [{ question := "Tell me about Project X", answer := some "On second thought",
           feedback := none }] :=
  have h := submitAnswer_guarded_by_footer_only secondThoughts []
    { question := "Tell me about Project X", answer := some "I built a caching layer",
      feedback := none }
    "I built a caching layer" rfl rfl (by decide) (by decide)
  ⟨h.1, h.2.2.1⟩

/-! ## Follow-up replies in MockInterview -/

/-- Whatever the feedback, a reply with a usable question is taken by the first
test of the `try` block (MockInterview.jsx 41-43), which appends the question
and never looks at the feedback. -/
theorem fetchTry_question_first (s : MockState) (currentHistory : History) (data : Reply)
    (q : String) (h : asTruthy data.next_question = some q) :
    fetchTry s currentHistory (.ok data)
      = .ok { s with history := currentHistory ++ [newTurn q], answer := "" } := by
  simp [fetchTry, h, newTurn]

/-- C13 (behaviour of the code): with one answered turn as `currentHistory` and
the reply of scenario B, `fetchNextQuestion` throws the `ReferenceError` of
line 28 and leaves the history as it was, without the feedback and without
the next question; and with `isLoading` bound to `setLoading` the test of line
41 takes the reply first, so the next question is appended and the feedback is
dropped: the branch of line 44 that would attach it is never taken. -/
theorem fetchNextQuestion_follow_up_drops_feedback :
    fetchNextQuestion mockAnswered mockAnswered.history (.ok followUpReply)
      = { state := mockAnswered, requests := [],
          thrown := some (.referenceError "isLoading is not defined") } ∧
    fetchNextQuestionWith (some setLoading) mockAnswered mockAnswered.history (.ok followUpReply)
      = { state :=
            { history := [{ question := "Tell me about Project X",
                            answer := some "I built a caching layer", feedback := none },
                          { question := "What was the biggest challenge?", answer := none,
                            feedback := none }],
              answer := "", loading := false, error := "" },
          requests := [mockAnswered.history], thrown := none } := by
  refine ⟨rfl, by rfl⟩

/-! ## Capture without a recogniser -/

/-- C15, as stated, fails: without a recogniser, `toggleListen` on an idle modal
raises nothing, calls nothing and sets `isListening` to true. -/
theorem toggleListen_without_recognizer_counterexample :
    toggleListen noRecognizer = ({ noRecognizer with isListening := true }, []) ∧
    (toggleListen noRecognizer).1.isListening ≠ noRecognizer.isListening := by
  refine ⟨rfl, by decide⟩

/-- C15, amended: when no recogniser was created, `toggleListen` invoked while
idle does not fail and makes no call on a recogniser; it clears the pending text
and toggles `isListening` to true, as it does with a recogniser.  The typed-answer
path stays usable: text typed afterwards that is not blank is recorded by
`submitAnswer` on the last turn, the request is issued with it, and `isListening`
is false again. -/
theorem toggleListen_without_recognizer (s : ModalState) (init : History) (last : Turn)
    (text : String) (hr : s.recognition = false) (hl : s.isListening = false)
    (hs : s.history = init ++ [last]) (ht : jsTrim text ≠ "") :
    toggleListen s = ({ s with transcript := "", isListening := true }, []) ∧
    submitAnswer { (toggleListen s).1 with transcript := text }
      = { state :=
            { history := init ++ [{ question := last.question, answer := some text,
                                    feedback := last.feedback }],
              isListening := false, isThinking := true, transcript := "",
              recognition := false },
          effects :=
            [Effect.request (init ++ [{ question := last.question, answer := some text,
                                        feedback := last.feedback }])],
          thrown := none } := by
  have h1 : toggleListen s = ({ s with transcript := "", isListening := true }, []) := by
    simp [toggleListen, hl, hr]
  refine ⟨h1, ?_⟩
  rw [h1]
  have h2 := submitAnswer_answer
    { history := s.history, isListening := true, isThinking := s.isThinking,
      transcript := text, recognition := s.recognition } init last hs ht
  rw [h2]
  simp [afterStop, toggleListen, hr]

theorem toggleListen_without_recognizer_witness :
    toggleListen noRecognizer = ({ noRecognizer with isListening := true }, []) ∧
    submitAnswer { (toggleListen noRecognizer).1 with transcript := "I led the team" }
      = { state :=
            { history := [{ question := "Tell me about Project X",
                            answer := some "I led the team", feedback := none }],
              isListening := false, isThinking := true, transcript := "",
              recognition := false },
          effects :=
            [Effect.request [{ question := "Tell me about Project X",
                               answer := some "I led the team", feedback := none }]],
          thrown := none } :=
  toggleListen_without_recognizer noRecognizer [] (newTurn "Tell me about Project X")
    "I led the team" rfl rfl rfl (by decide)

end LastPrep
